import Mathlib

/-!
# Verification of the Smart_card_reader kiosk controller

Shallow embedding of the RFID-kiosk controller (`main.py`,
`abstract/product/concrete_products_linux.py`) and proofs about it.

The program reads tag-identifier lines from a serial reader, maps each
identifier to a video file, and drives a VLC player on a Tk surface.
We embed, as pure state-transition functions:

* the configuration loader `LinuxConfig.load_config` and the `__main__`
  startup guard (`mainStartup`);
* the serial backoff state of `LinuxSerialPort`
  (`get_time_polling`, `serial_open`);
* the Tk-scheduler view of `RFIDVideoApp.__poll_serial` /
  `__reconnect_serial` (job handles, the `after` / `after_cancel`
  primitives, and the poll/reconnect handoff);
* the playback engine `LinuxVLCMediaEngine`
  (`show_home`, `play_video`, `__restart_video`, `__on_video_end`,
  `__watch_player`);
* the command dispatch `RFIDVideoApp.__process_cmd` and the connected
  branch of `__poll_serial` (`poll_dispatch`).

External effects that can fail (opening the port, VLC media preparation
and start) are passed in as explicit boolean outcomes; Python `try`
blocks that swallow exceptions become the corresponding `Bool` case
split, so every embedded operation is a total function — the embedded
form of "never raises out of the call".
-/

set_option autoImplicit false

/-! ## Configuration loading (`LinuxConfig.load_config`, lines 37-53) -/

/-- Python dict assignment `uid_map[uid] = path` on an insertion-ordered
association list: overwrite the value if the key is present, otherwise
append the new binding. -/
def dictInsert (m : List (String × String)) (k v : String) :
    List (String × String) :=
  if m.any (fun p => p.1 == k) then
    m.map (fun p => if p.1 == k then (p.1, v) else p)
  else m ++ [(k, v)]

/-- Embedding of `LinuxConfig.load_config`.

`cfgFile` is the parsed YAML `uid_map` table: `none` when opening or
parsing `config.yaml` throws (that exception is logged and re-raised by
the `except` clause), `some entries` otherwise.  `resolve` models
`(video_dir / fname).resolve()` and `pathExists` models
`path.exists()`.  Entries whose resolved path does not exist are
dropped (with a logged error).  When the filtered map is empty the code
logs `"No valid videos found in configuration"` but still returns the
empty map — it does not raise. -/
def load_config (cfgFile : Option (List (String × String)))
    (resolve : String → String) (pathExists : String → Bool) :
    Except String (List (String × String)) :=
  match cfgFile with
  | none => Except.error "Configuration error"
  | some entries =>
      Except.ok (entries.foldl
        (fun m p =>
          let path := resolve p.2
          if pathExists path then dictInsert m p.1 path else m)
        [])

/-- Outcome of program startup: either the cooperative run-forever loop
(`mainloop`) was entered with the given resolved identifier map, or the
process exited with the given code before reaching it. -/
inductive StartupOutcome where
  | enteredLoop (uidMap : List (String × String))
  | exited (code : Nat)
deriving DecidableEq, Repr

/-- Embedding of the `__main__` guard of `main.py` (lines 88-94)
composed with `RFIDVideoApp.__init__`: `load_config` is called during
construction; if it raises, the exception propagates to the guard,
which logs and calls `sys.exit(1)`; otherwise construction continues
and `mainloop` is entered with whatever map `load_config` returned. -/
def mainStartup (cfgFile : Option (List (String × String)))
    (resolve : String → String) (pathExists : String → Bool) :
    StartupOutcome :=
  match load_config cfgFile resolve pathExists with
  | Except.error _ => StartupOutcome.exited 1
  | Except.ok m => StartupOutcome.enteredLoop m

/-! ## Serial backoff (`LinuxSerialPort`, lines 61-116) -/

/-- Backoff-relevant state of `LinuxSerialPort`: connection flag
(`__ser` truthiness), the configured bounds `__min_backoff` /
`__max_backoff`, the stored `__backoff_time` and `__error_count`. -/
structure SerialState where
  isOpen : Bool
  minBackoff : Nat
  maxBackoff : Nat
  backoffTime : Nat
  errorCount : Nat
deriving DecidableEq, Repr

/-- State of `LinuxSerialPort` right after `__init__` (before the
constructor's own `open()` call): `__max_backoff = 16`,
`__min_backoff = 1`, `__backoff_time = __min_backoff`,
`__error_count = 0`, no connection. -/
def initSerialState : SerialState :=
  { isOpen := false, minBackoff := 1, maxBackoff := 16,
    backoffTime := 1, errorCount := 0 }

/-- Embedding of `LinuxSerialPort.get_time_polling`: increments
`__error_count`, stores `min(__backoff_time * 2, __max_backoff)` back
into `__backoff_time`, and returns the stored value. -/
def get_time_polling (s : SerialState) : Nat × SerialState :=
  let b := min (s.backoffTime * 2) s.maxBackoff
  (b, { s with errorCount := s.errorCount + 1, backoffTime := b })

/-- Embedding of `LinuxSerialPort.open`.  `success` is the outcome of
the `serial.Serial(...)` constructor.  On success the channel is
connected and `__backoff_time` is reset to `__min_backoff`; on failure
(`SerialException` / `OSError`, caught and logged) `__ser` stays `None`
and the backoff state is untouched. -/
def serial_open (s : SerialState) (success : Bool) : SerialState :=
  if success then
    { s with isOpen := true, backoffTime := s.minBackoff }
  else
    { s with isOpen := false }

/-- Returned delays of `n` consecutive `get_time_polling` calls
(consecutive failed-reconnect waits), oldest first. -/
def backoffDelays (s : SerialState) : Nat → List Nat
  | 0 => []
  | n + 1 =>
      let r := get_time_polling s
      r.1 :: backoffDelays r.2 n

/-- Embedding of `LinuxSerialPort.receive_datas`, with the drain loop
reading decoded-and-stripped chunks `raw` in arrival order: empty lines
(falsy after `strip()`) are skipped, everything else is appended, so
the result is the nonempty lines oldest first.  The read-error path
(self-close and return of the partial list) does not change which lines
are returned relative to what was read. -/
def receive_datas (raw : List String) : List String :=
  raw.filter (fun s => s ≠ "")

/-! ## Playback engine (`LinuxVLCMediaEngine`, lines 175-315) -/

/-- States reported by `player.get_state()` (the `vlc.State` enum). -/
inductive VLCState where
  | NothingSpecial
  | Opening
  | Buffering
  | Playing
  | Paused
  | Stopped
  | Ended
  | Error
deriving DecidableEq, Repr

/-- The watchdog's fault test `state in (vlc.State.Error,
vlc.State.Stopped)` from `__watch_player`. -/
def isFaultState (st : VLCState) : Bool :=
  st == VLCState.Error || st == VLCState.Stopped

/-- State of `LinuxVLCMediaEngine`:

* `currentUid` — `__current_uid` (`""` means idle / home screen);
* `playerGen` — identity of the `MediaPlayer` object, bumped each time
  the watchdog replaces it with `media_player_new()`;
* `playerMedia` — the uid whose media is loaded via `set_media`
  (`none` after `set_media(None)` or on a fresh player);
* `playerStarted` — whether `play()` has been called since the last
  `stop()` on the current player;
* `playerAttached` — whether `set_xwindow` bound the current player to
  the canvas;
* `homeVisible` / `videoVisible` — which surface is placed
  (`__home_lbl` / `__canvas`);
* `mediaCache` — the uids present in `__media_cache` (append-only);
* `watchdogScheduled` — whether a `__watch_player` timer is pending. -/
structure EngineState where
  currentUid : String
  playerGen : Nat
  playerMedia : Option String
  playerStarted : Bool
  playerAttached : Bool
  homeVisible : Bool
  videoVisible : Bool
  mediaCache : List String
  watchdogScheduled : Bool
deriving DecidableEq, Repr

/-- Engine state after `LinuxVLCMediaEngine.__init__`: idle, fresh
player attached to the canvas, empty cache, home label placed, and the
constructor's `__watch_player()` call has left a watchdog timer
pending. -/
def initEngineState : EngineState :=
  { currentUid := "", playerGen := 0, playerMedia := none,
    playerStarted := false, playerAttached := true,
    homeVisible := true, videoVisible := false,
    mediaCache := [], watchdogScheduled := true }

/-- Embedding of `LinuxVLCMediaEngine.__get_media`: return the cached
media for `uid`, creating and caching it on first use.  Only the cache
effect is tracked; the returned media object is identified by `uid`. -/
def get_media (s : EngineState) (uid : String) : EngineState :=
  if s.mediaCache.contains uid then s
  else { s with mediaCache := s.mediaCache ++ [uid] }

/-- Embedding of `LinuxVLCMediaEngine.show_home`: if an identifier is
active, stop the player and release its media (`stop()`,
`set_media(None)`, both under a `try` that only logs) and clear
`__current_uid`; in every case hide the canvas and place the home
label. -/
def show_home (s : EngineState) : EngineState :=
  let s1 :=
    if s.currentUid ≠ "" then
      { s with playerStarted := false, playerMedia := none,
               currentUid := "" }
    else s
  { s1 with videoVisible := false, homeVisible := true }

/-- Embedding of `LinuxVLCMediaEngine.play_video`.  The whole body is
one `try`: when `uid` differs from `__current_uid` it fetches the
media, calls `set_media` / `play`, records `uid` as current and swaps
the surfaces; when `uid` equals `__current_uid` nothing runs.  `ok` is
the outcome of the media-preparation/start steps; on failure
(`except`) the error is logged and `show_home()` is the fallback. -/
def play_video (s : EngineState) (uid : String) (ok : Bool) :
    EngineState :=
  if uid ≠ s.currentUid then
    if ok then
      let s1 := get_media s uid
      { s1 with playerMedia := some uid, playerStarted := true,
                currentUid := uid, homeVisible := false,
                videoVisible := true }
    else
      show_home s
  else s

/-- Embedding of `LinuxVLCMediaEngine.__restart_video`: if an
identifier is active (and the player handle exists, which it always
does here), re-fetch its cached media, `set_media` and `play` it; the
surrounding `try` logs and absorbs a failure (`ok = false`) leaving the
state as it was. -/
def restart_video (s : EngineState) (ok : Bool) : EngineState :=
  if s.currentUid ≠ "" then
    if ok then
      let s1 := get_media s s.currentUid
      { s1 with playerMedia := some s.currentUid, playerStarted := true }
    else s
  else s

/-- Embedding of `LinuxVLCMediaEngine.__on_video_end` together with the
`after(0, __restart_video)` it schedules: when an identifier is active
the restart runs on the loop thread; when idle nothing is scheduled. -/
def on_video_end (s : EngineState) (ok : Bool) : EngineState :=
  if s.currentUid ≠ "" then restart_video s ok else s

/-- Embedding of `LinuxVLCMediaEngine.__watch_player`, one tick.
`reported` is `player.get_state()`; `ok` is the outcome of the
`__restart_video` media steps during recovery.  On a fault
(`Error`/`Stopped`): stop and release the old player (guarded),
create a fresh `MediaPlayer`, re-attach it to the Tk window
(`__attach_player_window`), and run `__restart_video`.  In every case
the final statement re-schedules the watchdog
(`after(10_000, __watch_player)`). -/
def watch_player (s : EngineState) (reported : VLCState) (ok : Bool) :
    EngineState :=
  let s1 :=
    if isFaultState reported then
      let sNew := { s with playerGen := s.playerGen + 1,
                           playerMedia := none, playerStarted := false,
                           playerAttached := true }
      restart_video sNew ok
    else s
  { s1 with watchdogScheduled := true }

/-! ## Command dispatch (`RFIDVideoApp.__process_cmd`, lines 65-76) -/

/-- Controller-plus-engine state seen by `__process_cmd`: the
deduplication register `__last_cmd`, the playback engine, and a count
of `"Unknown UID/cmd"` warnings emitted. -/
structure AppState where
  lastCmd : Option String
  engine : EngineState
  warnCount : Nat
deriving DecidableEq, Repr

/-- Controller state after `RFIDVideoApp.__init__`:
`__last_cmd = None`, fresh engine, no warnings yet. -/
def initAppState : AppState :=
  { lastCmd := none, engine := initEngineState, warnCount := 0 }

/-- Embedding of `RFIDVideoApp.__process_cmd`.  A command equal to
`__last_cmd` returns immediately (pure equality check, no time
window).  Otherwise: `"removed"` shows home; a key of `__uid_map`
starts `play_video` (with outcome `ok`); anything else logs an
`"Unknown UID/cmd"` warning.  In all three branches `__last_cmd` is
then set to the command. -/
def process_cmd (uidMap : List (String × String)) (s : AppState)
    (cmd : String) (ok : Bool) : AppState :=
  if s.lastCmd = some cmd then s
  else
    let s1 :=
      if cmd = "removed" then
        { s with engine := show_home s.engine }
      else if (uidMap.lookup cmd).isSome then
        { s with engine := play_video s.engine cmd ok }
      else
        { s with warnCount := s.warnCount + 1 }
    { s1 with lastCmd := some cmd }

/-- Embedding of the connected branch of `RFIDVideoApp.__poll_serial`
(lines 36-39): `lines` is the batch returned by `receive_datas()`; if
it is nonempty, `__process_cmd(lines[-1])` runs — older lines of the
batch are never dispatched. -/
def poll_dispatch (uidMap : List (String × String)) (s : AppState)
    (lines : List String) (ok : Bool) : AppState :=
  match lines.getLast? with
  | some c => process_cmd uidMap s c ok
  | none => s

/-! ## Poll/reconnect scheduling (`RFIDVideoApp`, lines 29-61)

The Tk scheduler is modelled explicitly: `after` returns a fresh job
handle and appends the job to the pending queue, `after_cancel` removes
a handle from the queue (cancelling a handle that already fired — which
is what both cancel sites in the code do — is a no-op).  Firing a
callback removes its job from the queue and then runs its body
atomically; the only input of a body is the `is_opened()` outcome. -/

/-- Which controller callback a scheduled job runs. -/
inductive CB where
  | poll
  | reconnect
deriving DecidableEq, Repr

/-- Scheduler view of the controller: the pending timer jobs (handle
and callback, in scheduling order), a fresh-handle counter, and the
stored handles `__run_poll_serial` / `__run_reconnect` (`none` models
the empty string `""`). -/
structure SchedState where
  pending : List (Nat × CB)
  nextId : Nat
  runPollSerial : Option Nat
  runReconnect : Option Nat
deriving DecidableEq, Repr

/-- Embedding of `run_loop_after_time` (Tk `after`): enqueue a job with
a fresh handle and return the handle. -/
def run_loop_after_time (s : SchedState) (cb : CB) : Nat × SchedState :=
  (s.nextId,
   { s with pending := s.pending ++ [(s.nextId, cb)],
            nextId := s.nextId + 1 })

/-- Embedding of `cancel_run_loop_after_time` (Tk `after_cancel`):
remove the job with the given handle from the queue; a handle that is
no longer pending (already fired) is removed vacuously. -/
def cancel_run_loop_after_time (s : SchedState) (h : Option Nat) :
    SchedState :=
  match h with
  | none => s
  | some j => { s with pending := s.pending.filter (fun p => p.1 ≠ j) }

/-- Scheduling effects of `RFIDVideoApp.__poll_serial` (lines 35-49);
`connected` is `self.__serial.is_opened()`.  Connected: (receive and
dispatch, which do not touch the scheduler, then) re-schedule the poll
and store its handle.  Disconnected: cancel the stored poll handle
(the one that just fired), clear it, and schedule the reconnect
callback after the backoff delay, storing its handle. -/
def poll_serial (s : SchedState) (connected : Bool) : SchedState :=
  if connected then
    let r := run_loop_after_time s CB.poll
    { r.2 with runPollSerial := some r.1 }
  else
    let s1 := cancel_run_loop_after_time s s.runPollSerial
    let s2 := { s1 with runPollSerial := none }
    let r := run_loop_after_time s2 CB.reconnect
    { r.2 with runReconnect := some r.1 }

/-- Scheduling effects of `RFIDVideoApp.__reconnect_serial` (lines
51-61); `connected` is `is_opened()` after the `open()` attempt.
Connected: cancel the stored reconnect handle, clear it, and resume the
poll cadence.  Still disconnected: re-schedule the reconnect callback
after the next backoff delay. -/
def reconnect_serial (s : SchedState) (connected : Bool) : SchedState :=
  if connected then
    let s1 := cancel_run_loop_after_time s s.runReconnect
    let s2 := { s1 with runReconnect := none }
    let r := run_loop_after_time s2 CB.poll
    { r.2 with runPollSerial := some r.1 }
  else
    let r := run_loop_after_time s CB.reconnect
    { r.2 with runReconnect := some r.1 }

/-- Fire the next pending timer job: remove it from the queue, then run
the corresponding callback body with `connected` as the `is_opened()`
outcome observed by that body.  With nothing pending the loop just
idles. -/
def fireNext (s : SchedState) (connected : Bool) : SchedState :=
  match s.pending with
  | [] => s
  | j :: rest =>
      let s1 := { s with pending := rest }
      match j.2 with
      | CB.poll => poll_serial s1 connected
      | CB.reconnect => reconnect_serial s1 connected

/-- Scheduler state after `RFIDVideoApp.__init__` (lines 29-31): both
stored handles start empty, then the first poll callback is scheduled
and its handle stored, and `mainloop()` is entered. -/
def initSched : SchedState :=
  let s0 : SchedState :=
    { pending := [], nextId := 0, runPollSerial := none,
      runReconnect := none }
  let r := run_loop_after_time s0 CB.poll
  { r.2 with runPollSerial := some r.1 }

/-- Run the cooperative loop over a sequence of `is_opened()` outcomes,
one per fired callback. -/
def runSched (s : SchedState) : List Bool → SchedState
  | [] => s
  | b :: bs => runSched (fireNext s b) bs

/-- A poll callback is scheduled. -/
def pollScheduled (s : SchedState) : Bool :=
  s.pending.any (fun p => p.2 == CB.poll)

/-- A reconnect callback is scheduled. -/
def reconnectScheduled (s : SchedState) : Bool :=
  s.pending.any (fun p => p.2 == CB.reconnect)

/-- The controller scheduling invariant: exactly one job — a poll or a
reconnect callback — is pending. -/
def SchedInv (s : SchedState) : Prop :=
  ∃ h cb, s.pending = [(h, cb)]

/-- Engine state with identifier `"AABBCCDD"` playing, as reached from
`initEngineState` by a successful `play_video "AABBCCDD"`. -/
def egPlayingState : EngineState :=
  play_video initEngineState "AABBCCDD" true

/-- Controller state whose deduplication register holds
`"AABBCCDD"`. -/
def egDupState : AppState :=
  { initAppState with lastCmd := some "AABBCCDD" }

example : mainStartup (some [("AABBCCDD", "a.mp4")]) id (fun _ => false)
    = StartupOutcome.enteredLoop [] := by rfl

example : backoffDelays initSerialState 6 = [2, 4, 8, 16, 16, 16] := by
  rfl

example :
    runSched initSched [true, false, false, true] =
      { pending := [(4, CB.poll)], nextId := 5,
        runPollSerial := some 4, runReconnect := none } := by rfl

example :
    egPlayingState =
      { currentUid := "AABBCCDD", playerGen := 0,
        playerMedia := some "AABBCCDD", playerStarted := true,
        playerAttached := true, homeVisible := false,
        videoVisible := true, mediaCache := ["AABBCCDD"],
        watchdogScheduled := true } := by rfl

/-! ## Helper lemmas -/

/-- Fetching (and possibly caching) a media object changes no engine
field other than the cache. -/
@[simp] theorem get_media_currentUid (s : EngineState) (uid : String) :
    (get_media s uid).currentUid = s.currentUid := by
  unfold get_media; split <;> rfl

@[simp] theorem get_media_playerGen (s : EngineState) (uid : String) :
    (get_media s uid).playerGen = s.playerGen := by
  unfold get_media; split <;> rfl

@[simp] theorem get_media_playerAttached (s : EngineState) (uid : String) :
    (get_media s uid).playerAttached = s.playerAttached := by
  unfold get_media; split <;> rfl

@[simp] theorem get_media_homeVisible (s : EngineState) (uid : String) :
    (get_media s uid).homeVisible = s.homeVisible := by
  unfold get_media; split <;> rfl

@[simp] theorem get_media_videoVisible (s : EngineState) (uid : String) :
    (get_media s uid).videoVisible = s.videoVisible := by
  unfold get_media; split <;> rfl

/-- Unfolding one `get_time_polling` step of the delay sequence. -/
theorem backoffDelays_succ (s : SerialState) (n : Nat) :
    backoffDelays s (n + 1) =
      min (s.backoffTime * 2) s.maxBackoff ::
        backoffDelays
          { s with errorCount := s.errorCount + 1,
                   backoffTime := min (s.backoffTime * 2) s.maxBackoff }
          n := rfl

/-- The delay sequence of consecutive `get_time_polling` calls is
non-decreasing, from any starting state. -/
theorem backoffDelays_chain (n : Nat) (s : SerialState) :
    List.Chain' (· ≤ ·) (backoffDelays s n) := by
  induction n generalizing s with
  | zero => simp [backoffDelays]
  | succ k ih =>
    rw [backoffDelays_succ, List.chain'_cons']
    refine ⟨?_, ih _⟩
    intro y hy
    cases k with
    | zero => simp [backoffDelays] at hy
    | succ k2 =>
      rw [backoffDelays_succ] at hy
      simp only [List.head?_cons, Option.mem_def, Option.some.injEq] at hy
      subst hy
      have h1 : min (s.backoffTime * 2) s.maxBackoff ≤ s.maxBackoff :=
        Nat.min_le_right _ _
      omega

/-- Every delay returned from a state whose stored backoff lies above
the configured minimum stays within the configured bounds. -/
theorem backoffDelays_bounds (n : Nat) (s : SerialState)
    (hmin : s.minBackoff ≤ s.backoffTime)
    (hmm : s.minBackoff ≤ s.maxBackoff) :
    ∀ d ∈ backoffDelays s n, s.minBackoff ≤ d ∧ d ≤ s.maxBackoff := by
  induction n generalizing s with
  | zero => simp [backoffDelays]
  | succ k ih =>
    rw [backoffDelays_succ]
    intro d hd
    rcases List.mem_cons.mp hd with h | h
    · subst h
      constructor
      · omega
      · exact Nat.min_le_right _ _
    · have hgen : s.minBackoff ≤ min (s.backoffTime * 2) s.maxBackoff := by
        omega
      have hrec := ih
        ⟨s.isOpen, s.minBackoff, s.maxBackoff,
          min (s.backoffTime * 2) s.maxBackoff, s.errorCount + 1⟩
        hgen hmm d h
      simpa using hrec

/-- Cancelling any handle when nothing is pending is a no-op. -/
theorem cancel_of_nothing_pending (s : SchedState) (h : Option Nat)
    (hp : s.pending = []) : cancel_run_loop_after_time s h = s := by
  cases h with
  | none => rfl
  | some j =>
    cases s
    simp_all [cancel_run_loop_after_time]

/-- Firing the pending callback preserves the one-pending-job
invariant, whatever `is_opened()` reports. -/
theorem fireNext_inv (s : SchedState) (b : Bool) (hs : SchedInv s) :
    SchedInv (fireNext s b) := by
  obtain ⟨h, cb, hp⟩ := hs
  unfold fireNext
  rw [hp]
  have hnil : ({ s with pending := [] } : SchedState).pending = [] := rfl
  cases cb with
  | poll =>
    cases b with
    | true => exact ⟨s.nextId, CB.poll, rfl⟩
    | false =>
      refine ⟨s.nextId, CB.reconnect, ?_⟩
      simp only [poll_serial, Bool.false_eq_true, if_false,
        cancel_of_nothing_pending _ _ hnil]
      rfl
  | reconnect =>
    cases b with
    | true =>
      refine ⟨s.nextId, CB.poll, ?_⟩
      simp only [reconnect_serial, if_true,
        cancel_of_nothing_pending _ _ hnil]
      rfl
    | false => exact ⟨s.nextId, CB.reconnect, rfl⟩

/-- The one-pending-job invariant holds along every run. -/
theorem runSched_inv (bs : List Bool) (s : SchedState)
    (hs : SchedInv s) : SchedInv (runSched s bs) := by
  induction bs generalizing s with
  | nil => exact hs
  | cons b rest ih => exact ih _ (fireNext_inv s b hs)

/-- Whatever the dispatch outcome, `__process_cmd` leaves `__last_cmd`
equal to the processed command. -/
theorem process_cmd_lastCmd (uidMap : List (String × String))
    (s : AppState) (cmd : String) (ok : Bool) :
    (process_cmd uidMap s cmd ok).lastCmd = some cmd := by
  by_cases h : s.lastCmd = some cmd
  · simp [process_cmd, h]
  · simp only [process_cmd, if_neg h]

/-- A command equal to the deduplication register is an exact no-op. -/
theorem process_cmd_dup (uidMap : List (String × String))
    (s : AppState) (cmd : String) (ok : Bool)
    (h : s.lastCmd = some cmd) :
    process_cmd uidMap s cmd ok = s := by
  simp [process_cmd, h]

/-- After `show_home` no identifier is active. -/
@[simp] theorem show_home_currentUid (s : EngineState) :
    (show_home s).currentUid = "" := by
  by_cases h : s.currentUid = "" <;> simp [show_home, h]

/-- A watchdog tick never changes which identifier is active. -/
theorem watch_player_currentUid (s : EngineState) (st : VLCState)
    (b : Bool) : (watch_player s st b).currentUid = s.currentUid := by
  simp only [watch_player, restart_video]
  split_ifs <;> simp

/-! ## The claims -/

/-- C1 (code behavior at the failing input): with a configuration file
that parses to one entry whose resolved video path does not exist,
`load_config` returns the **empty** map without raising, and startup
proceeds into the run-forever loop instead of aborting; only a
missing/unparseable configuration file (`cfgFile = none`) reaches the
`__main__` guard and exits with code 1. -/
theorem empty_uid_map_startup_behavior :
    load_config (some [("AABBCCDD", "a.mp4")]) id (fun _ => false)
      = Except.ok []
    ∧ mainStartup (some [("AABBCCDD", "a.mp4")]) id (fun _ => false)
      = StartupOutcome.enteredLoop []
    ∧ mainStartup none id (fun _ => false) = StartupOutcome.exited 1 :=
  ⟨rfl, rfl, rfl⟩

/-- C2: for every sequence of connect/disconnect outcomes, at every
quiescent point of the loop the controller never has both a poll and a
reconnect callback scheduled, and (outside the handoff inside a firing
callback) never neither. -/
theorem poll_reconnect_mutually_exclusive (bs : List Bool) :
    (pollScheduled (runSched initSched bs)
        && reconnectScheduled (runSched initSched bs)) = false
    ∧ (pollScheduled (runSched initSched bs)
        || reconnectScheduled (runSched initSched bs)) = true := by
  obtain ⟨h, cb, hp⟩ := runSched_inv bs initSched ⟨0, CB.poll, rfl⟩
  cases cb <;> simp [pollScheduled, reconnectScheduled, hp]

/-- C3: across any number of consecutive `get_time_polling` calls the
returned delays are monotonically non-decreasing and stay within the
configured `[min_backoff, max_backoff]` bounds, and a successful
`open()` resets the stored backoff delay to the configured minimum. -/
theorem backoff_monotone_bounded_reset (s : SerialState) (n : Nat)
    (hmin : s.minBackoff ≤ s.backoffTime)
    (hmm : s.minBackoff ≤ s.maxBackoff) :
    List.Chain' (· ≤ ·) (backoffDelays s n)
    ∧ (∀ d ∈ backoffDelays s n, s.minBackoff ≤ d ∧ d ≤ s.maxBackoff)
    ∧ (serial_open s true).backoffTime = s.minBackoff :=
  ⟨backoffDelays_chain n s, backoffDelays_bounds n s hmin hmm, rfl⟩

/-- Witness for C3 at the constructed `LinuxSerialPort` state and six
consecutive failed reconnects. -/
theorem backoff_monotone_bounded_reset_witness :
    (initSerialState.minBackoff ≤ initSerialState.backoffTime
      ∧ initSerialState.minBackoff ≤ initSerialState.maxBackoff)
    ∧ (List.Chain' (· ≤ ·) (backoffDelays initSerialState 6)
      ∧ (∀ d ∈ backoffDelays initSerialState 6,
          initSerialState.minBackoff ≤ d ∧ d ≤ initSerialState.maxBackoff)
      ∧ (serial_open initSerialState true).backoffTime
          = initSerialState.minBackoff) :=
  ⟨⟨by decide, by decide⟩,
    backoff_monotone_bounded_reset initSerialState 6 (by decide)
      (by decide)⟩

/-- C4: a watchdog tick always leaves a watchdog timer pending (fault
or not, recovery succeeding or not), never changes the active
identifier, and on a fault replaces the player (fresh handle,
re-attached to the window) and resumes the active identifier's media —
or leaves the fresh player idle when no identifier was active. -/
theorem watchdog_recovers_and_reschedules
    (s sIdle : EngineState) (reported other : VLCState) (ok : Bool)
    (hfault : isFaultState reported = true)
    (hActive : s.currentUid ≠ "")
    (hIdle : sIdle.currentUid = "") :
    (watch_player s other ok).watchdogScheduled = true
    ∧ (watch_player sIdle other ok).watchdogScheduled = true
    ∧ (watch_player s other ok).currentUid = s.currentUid
    ∧ (watch_player s reported true).currentUid = s.currentUid
    ∧ (watch_player s reported true).playerGen = s.playerGen + 1
    ∧ (watch_player s reported true).playerAttached = true
    ∧ (watch_player s reported true).playerMedia = some s.currentUid
    ∧ (watch_player s reported true).playerStarted = true
    ∧ (watch_player sIdle reported ok).currentUid = sIdle.currentUid
    ∧ (watch_player sIdle reported ok).playerGen = sIdle.playerGen + 1
    ∧ (watch_player sIdle reported ok).playerAttached = true
    ∧ (watch_player sIdle reported ok).playerMedia = none
    ∧ (watch_player sIdle reported ok).playerStarted = false := by
  refine ⟨rfl, rfl, watch_player_currentUid s other ok,
    watch_player_currentUid s reported true, ?_, ?_, ?_, ?_,
    watch_player_currentUid sIdle reported ok, ?_, ?_, ?_, ?_⟩ <;>
    simp [watch_player, restart_video, hfault, hActive, hIdle]

/-- Witness for C4: a `Stopped` fault while `"AABBCCDD"` is playing,
and the same fault while idle; `Playing` as the non-fault tick. -/
theorem watchdog_recovers_and_reschedules_witness :
    (isFaultState VLCState.Stopped = true
      ∧ egPlayingState.currentUid ≠ ""
      ∧ initEngineState.currentUid = "")
    ∧ ((watch_player egPlayingState
          VLCState.Playing false).watchdogScheduled = true
      ∧ (watch_player initEngineState
          VLCState.Playing false).watchdogScheduled = true
      ∧ (watch_player egPlayingState VLCState.Playing false).currentUid
          = egPlayingState.currentUid
      ∧ (watch_player egPlayingState VLCState.Stopped true).currentUid
          = egPlayingState.currentUid
      ∧ (watch_player egPlayingState VLCState.Stopped true).playerGen
          = egPlayingState.playerGen + 1
      ∧ (watch_player egPlayingState
          VLCState.Stopped true).playerAttached = true
      ∧ (watch_player egPlayingState VLCState.Stopped true).playerMedia
          = some egPlayingState.currentUid
      ∧ (watch_player egPlayingState
          VLCState.Stopped true).playerStarted = true
      ∧ (watch_player initEngineState VLCState.Stopped false).currentUid
          = initEngineState.currentUid
      ∧ (watch_player initEngineState VLCState.Stopped false).playerGen
          = initEngineState.playerGen + 1
      ∧ (watch_player initEngineState
          VLCState.Stopped false).playerAttached = true
      ∧ (watch_player initEngineState VLCState.Stopped false).playerMedia
          = none
      ∧ (watch_player initEngineState
          VLCState.Stopped false).playerStarted = false) :=
  ⟨⟨by decide, by decide, rfl⟩,
    watchdog_recovers_and_reschedules egPlayingState initEngineState
      VLCState.Stopped VLCState.Playing false (by decide) (by decide)
      rfl⟩

/-- C5: a command equal to the immediately preceding dispatched command
is suppressed outright — `__process_cmd` returns with the entire state
unchanged.  The check is a pure equality test against `__last_cmd`;
the embedded transition carries no clock, so suppression cannot depend
on elapsed time. -/
theorem duplicate_cmd_suppressed (uidMap : List (String × String))
    (s : AppState) (cmd : String) (ok : Bool)
    (h : s.lastCmd = some cmd) :
    process_cmd uidMap s cmd ok = s :=
  process_cmd_dup uidMap s cmd ok h

/-- Witness for C5: repeating `"AABBCCDD"` right after it was
dispatched is a no-op. -/
theorem duplicate_cmd_suppressed_witness :
    egDupState.lastCmd = some "AABBCCDD"
    ∧ process_cmd [("AABBCCDD", "/videos/a.mp4")] egDupState "AABBCCDD"
        true = egDupState :=
  ⟨rfl,
    duplicate_cmd_suppressed [("AABBCCDD", "/videos/a.mp4")] egDupState
      "AABBCCDD" true rfl⟩

/-- C6: an end-of-media signal while `Playing(x)` leaves the engine in
`Playing(x)` — the active identifier is unchanged for every restart
outcome — and when the restart steps succeed the same identifier's
media is re-queued and playback restarted; end-of-media never yields
`Idle`. -/
theorem end_of_media_loops (s : EngineState) (x : String) (ok : Bool)
    (hx : s.currentUid = x) (hne : x ≠ "") :
    (on_video_end s ok).currentUid = x
    ∧ (on_video_end s true).playerMedia = some x
    ∧ (on_video_end s true).playerStarted = true := by
  subst hx
  refine ⟨?_, ?_, ?_⟩
  · cases ok <;> simp [on_video_end, restart_video, hne]
  · simp [on_video_end, restart_video, hne]
  · simp [on_video_end, restart_video, hne]

/-- Witness for C6: end-of-media while `"AABBCCDD"` is playing. -/
theorem end_of_media_loops_witness :
    (egPlayingState.currentUid = "AABBCCDD" ∧ "AABBCCDD" ≠ "")
    ∧ ((on_video_end egPlayingState false).currentUid = "AABBCCDD"
      ∧ (on_video_end egPlayingState true).playerMedia
          = some "AABBCCDD"
      ∧ (on_video_end egPlayingState true).playerStarted = true) :=
  ⟨⟨rfl, by decide⟩,
    end_of_media_loops egPlayingState "AABBCCDD" false rfl (by decide)⟩

/-- C7: `play_video` with the currently active identifier is an exact
no-op, and on any failure to prepare or start playback it falls back to
`show_home` — the active identifier becomes empty and the idle surface
is shown.  The embedded function is total: the `except` branch is the
fallback, nothing propagates to the caller. -/
theorem play_video_noop_and_fallback (s : EngineState)
    (uidSame uidNew : String) (ok : Bool)
    (hSame : uidSame = s.currentUid) (hNew : uidNew ≠ s.currentUid) :
    play_video s uidSame ok = s
    ∧ play_video s uidNew false = show_home s
    ∧ (play_video s uidNew false).currentUid = ""
    ∧ (play_video s uidNew false).homeVisible = true
    ∧ (play_video s uidNew false).videoVisible = false := by
  refine ⟨?_, ?_, ?_, ?_, ?_⟩
  · simp [play_video, hSame]
  · simp [play_video, hNew]
  · simp [play_video, hNew]
  · simp [play_video, show_home, hNew]
  · simp [play_video, show_home, hNew]

/-- Witness for C7: replaying the active `"AABBCCDD"` is a no-op, and
a failing `play_video "EEFF0011"` falls back to the home screen. -/
theorem play_video_noop_and_fallback_witness :
    ("AABBCCDD" = egPlayingState.currentUid
      ∧ "EEFF0011" ≠ egPlayingState.currentUid)
    ∧ (play_video egPlayingState "AABBCCDD" true = egPlayingState
      ∧ play_video egPlayingState "EEFF0011" false
          = show_home egPlayingState
      ∧ (play_video egPlayingState "EEFF0011" false).currentUid = ""
      ∧ (play_video egPlayingState "EEFF0011" false).homeVisible = true
      ∧ (play_video egPlayingState "EEFF0011" false).videoVisible
          = false) :=
  ⟨⟨by decide, by decide⟩,
    play_video_noop_and_fallback egPlayingState "AABBCCDD" "EEFF0011"
      true (by decide) (by decide)⟩

/-- C8: a connected poll cycle whose drained batch ends in line `c`
dispatches exactly `c` — every older line of the batch is discarded
without any action — and an empty batch dispatches nothing. -/
theorem poll_dispatch_last_line (uidMap : List (String × String))
    (s : AppState) (ok : Bool) (pre : List String) (c : String) :
    poll_dispatch uidMap s (pre ++ [c]) ok = process_cmd uidMap s c ok
    ∧ poll_dispatch uidMap s (pre ++ [c]) ok
        = poll_dispatch uidMap s [c] ok
    ∧ poll_dispatch uidMap s [] ok = s := by
  have hlast : (pre ++ [c]).getLast? = some c := by
    rw [List.getLast?_append_cons]
    rfl
  refine ⟨?_, ?_, rfl⟩ <;> simp [poll_dispatch, hlast]

/-- C9: dispatching a token that is neither `"removed"` nor a key of
the identifier map takes no playback action — the engine is untouched
from any controller state — and from a state where the token is not the
previous command it increments the warning count by exactly one.  The
embedded dispatch is total, so nothing is raised. -/
theorem unknown_cmd_engine_untouched (uidMap : List (String × String))
    (s t : AppState) (cmd : String) (ok : Bool)
    (h1 : cmd ≠ "removed") (h2 : uidMap.lookup cmd = none)
    (hnew : s.lastCmd ≠ some cmd) :
    (process_cmd uidMap t cmd ok).engine = t.engine
    ∧ (process_cmd uidMap s cmd ok).warnCount = s.warnCount + 1
    ∧ (process_cmd uidMap s cmd ok).engine = s.engine := by
  refine ⟨?_, ?_, ?_⟩
  · by_cases hd : t.lastCmd = some cmd <;> simp [process_cmd, hd, h1, h2]
  · simp [process_cmd, hnew, h1, h2]
  · simp [process_cmd, hnew, h1, h2]

/-- Witness for C9: dispatching `"ZZZZZZZZ"` against the map
`{"AABBCCDD": "/videos/a.mp4"}` from the startup state. -/
theorem unknown_cmd_engine_untouched_witness :
    ("ZZZZZZZZ" ≠ "removed"
      ∧ List.lookup "ZZZZZZZZ" [("AABBCCDD", "/videos/a.mp4")] = none
      ∧ initAppState.lastCmd ≠ some "ZZZZZZZZ")
    ∧ ((process_cmd [("AABBCCDD", "/videos/a.mp4")] initAppState
          "ZZZZZZZZ" true).engine = initAppState.engine
      ∧ (process_cmd [("AABBCCDD", "/videos/a.mp4")] initAppState
          "ZZZZZZZZ" true).warnCount = initAppState.warnCount + 1
      ∧ (process_cmd [("AABBCCDD", "/videos/a.mp4")] initAppState
          "ZZZZZZZZ" true).engine = initAppState.engine) :=
  ⟨⟨by decide, by decide, by decide⟩,
    unknown_cmd_engine_untouched [("AABBCCDD", "/videos/a.mp4")]
      initAppState initAppState "ZZZZZZZZ" true (by decide) (by decide)
      (by decide)⟩

/-- C10: `__last_cmd` is updated to every processed command regardless
of dispatch outcome; hence processing the same line again right after
is an exact no-op (an unknown token is warned at most once until a
different line intervenes), and after a failed `play_video x` — which
fell back to idle — an immediately repeated `x` is suppressed and the
engine stays idle. -/
theorem last_cmd_always_updated (uidMap : List (String × String))
    (s sf : AppState) (cmd x : String) (ok ok2 ok3 : Bool)
    (hsf : sf.lastCmd ≠ some x) (hx1 : x ≠ "removed")
    (hx2 : (uidMap.lookup x).isSome = true)
    (hx3 : x ≠ sf.engine.currentUid) :
    (process_cmd uidMap s cmd ok).lastCmd = some cmd
    ∧ process_cmd uidMap (process_cmd uidMap s cmd ok) cmd ok2
        = process_cmd uidMap s cmd ok
    ∧ (process_cmd uidMap sf x false).engine.currentUid = ""
    ∧ ((process_cmd uidMap
          (process_cmd uidMap sf x false) x ok3).engine).currentUid
        = "" := by
  have h1 := process_cmd_lastCmd uidMap s cmd ok
  have h3 : (process_cmd uidMap sf x false).engine
      = show_home sf.engine := by
    simp [process_cmd, hsf, hx1, hx2, play_video, hx3]
  have h4 : process_cmd uidMap (process_cmd uidMap sf x false) x ok3
      = process_cmd uidMap sf x false :=
    process_cmd_dup uidMap _ x ok3 (process_cmd_lastCmd uidMap sf x false)
  refine ⟨h1, process_cmd_dup uidMap _ cmd ok2 h1, ?_, ?_⟩
  · rw [h3, show_home_currentUid]
  · rw [h4, h3, show_home_currentUid]

/-- Witness for C10: the known identifier `"AABBCCDD"` whose playback
attempt fails, processed twice from the startup state. -/
theorem last_cmd_always_updated_witness :
    (initAppState.lastCmd ≠ some "AABBCCDD"
      ∧ "AABBCCDD" ≠ "removed"
      ∧ (List.lookup "AABBCCDD"
          [("AABBCCDD", "/videos/a.mp4")]).isSome = true
      ∧ "AABBCCDD" ≠ initAppState.engine.currentUid)
    ∧ ((process_cmd [("AABBCCDD", "/videos/a.mp4")] initAppState
          "ZZZZZZZZ" true).lastCmd = some "ZZZZZZZZ"
      ∧ process_cmd [("AABBCCDD", "/videos/a.mp4")]
          (process_cmd [("AABBCCDD", "/videos/a.mp4")] initAppState
            "ZZZZZZZZ" true) "ZZZZZZZZ" true
          = process_cmd [("AABBCCDD", "/videos/a.mp4")] initAppState
              "ZZZZZZZZ" true
      ∧ (process_cmd [("AABBCCDD", "/videos/a.mp4")] initAppState
          "AABBCCDD" false).engine.currentUid = ""
      ∧ (process_cmd [("AABBCCDD", "/videos/a.mp4")]
          (process_cmd [("AABBCCDD", "/videos/a.mp4")] initAppState
            "AABBCCDD" false) "AABBCCDD" true).engine.currentUid
          = "") :=
  ⟨⟨by decide, by decide, by decide, by decide⟩,
    last_cmd_always_updated [("AABBCCDD", "/videos/a.mp4")] initAppState
      initAppState "ZZZZZZZZ" "AABBCCDD" true true true (by decide)
      (by decide) (by decide) (by decide)⟩

